import Mathlib

/-!
Verification of the RemedyLab backend's doctor-allocation and
recommendation-review workflow, as a shallow embedding of the Python
sources (`backend/models/*.py`, `backend/services/*.py`,
`backend/api/routes/recommendation_routes.py`).

Database tables are modelled as Lean lists of row structures; a SQL
`UPDATE ... WHERE k = ?` is a `List.map` that rewrites the matching rows, a
`SELECT ... WHERE` with `fetch_one` is `List.find?`, and with `fetch_all` is
`List.filter`.  `DBManager.execute_query` returns a success Boolean; where a
caller checks that Boolean, the write is modelled as applied exactly when an
explicit `writeOk`/`saveOk` flag is true.  Timestamps
(`datetime.now().isoformat()`) are threaded in as explicit `now : String`
arguments.  Python truthiness on optional strings (`if x:` where `x` is
`None` or a `str`) is `optTruthy`.
-/

namespace RemedyLab

/-- Python truthiness of an optional string: `None` and `""` are falsy. -/
def optTruthy : Option String → Bool
  | none => false
  | some s => s != ""

/-! ## Recommendation rows (`backend/models/recommendation.py`) -/
/-- One row of the `recommendations` table / one in-memory `Recommendation`
object (`Recommendation.__init__`). -/
structure Recommendation where
  recommendation_id : String
  report_id : String
  patient_id : String
  ai_generated_treatment : Option String := none
  ai_generated_lifestyle : Option String := none
  ai_generated_priority : Option String := none
  doctor_id : Option String := none
  doctor_notes : Option String := none
  status : String := "AI_generated"
  reviewed_date : Option String := none
  approved_treatment : Option String := none
  approved_lifestyle : Option String := none
  created_at : String := ""
  last_updated_at : String := ""
deriving Repr, DecidableEq

/-- In-memory effect of `Recommendation.update_status` (lines 192-217): sets
the new status unconditionally, stamps `last_updated_at` and `reviewed_date`
to now, and merges the optional arguments: `doctor_id` by Python `or`
(truthiness), the other three by `is not None` checks, so passing `None`
keeps the previous value. -/
def Recommendation.update_status (r : Recommendation) (new_status : String)
    (doctor_id doctor_notes approved_treatment approved_lifestyle : Option String)
    (now : String) : Recommendation :=
  { r with
    status := new_status
    last_updated_at := now
    reviewed_date := some now
    doctor_id := if optTruthy doctor_id then doctor_id else r.doctor_id
    doctor_notes := if doctor_notes.isSome then doctor_notes else r.doctor_notes
    approved_treatment :=
      if approved_treatment.isSome then approved_treatment else r.approved_treatment
    approved_lifestyle :=
      if approved_lifestyle.isSome then approved_lifestyle else r.approved_lifestyle }

/-- `Recommendation.approve`: status `approved_by_doctor`, copying the
AI-generated treatment/lifestyle into the approved fields. -/
def Recommendation.approve (r : Recommendation) (doctor_id doctor_notes now : String) :
    Recommendation :=
  r.update_status "approved_by_doctor" (some doctor_id) (some doctor_notes)
    r.ai_generated_treatment r.ai_generated_lifestyle now

/-- `Recommendation.modify_and_approve`: status
`modified_and_approved_by_doctor`, storing the supplied replacement texts. -/
def Recommendation.modify_and_approve (r : Recommendation)
    (doctor_id approved_treatment approved_lifestyle doctor_notes now : String) :
    Recommendation :=
  r.update_status "modified_and_approved_by_doctor" (some doctor_id) (some doctor_notes)
    (some approved_treatment) (some approved_lifestyle) now

/-- `Recommendation.reject`: status `rejected_by_doctor`; the source passes
`approved_treatment=None, approved_lifestyle=None` (commented "Clear any
previous approved content"). -/
def Recommendation.reject (r : Recommendation) (doctor_id doctor_notes now : String) :
    Recommendation :=
  r.update_status "rejected_by_doctor" (some doctor_id) (some doctor_notes) none none now

/-- `SELECT * FROM recommendations WHERE recommendation_id = ?` with
`fetch_one` (`Recommendation.get_by_recommendation_id`). -/
def getByRecommendationId (db : List Recommendation) (rid : String) :
    Option Recommendation :=
  db.find? (fun r => r.recommendation_id == rid)

/-- `UPDATE recommendations ... WHERE recommendation_id = ?`: rewrite the
rows whose id matches. -/
def writeRec (db : List Recommendation) (r : Recommendation) : List Recommendation :=
  db.map (fun x => if x.recommendation_id == r.recommendation_id then r else x)

/-- `WHERE doctor_id = ? AND status = 'pending_doctor_review'` — the filter
of `Recommendation.get_pending_for_doctor` (lines 71-84). -/
def pendingForDoctorPred (did : String) (r : Recommendation) : Bool :=
  r.doctor_id == some did && r.status == "pending_doctor_review"

/-- `Recommendation.get_pending_for_doctor`: the rows matching
`pendingForDoctorPred`.  (The source's `ORDER BY created_at DESC` changes
neither membership nor length, so the ordering is left as-is.) -/
def Recommendation.get_pending_for_doctor (db : List Recommendation) (did : String) :
    List Recommendation :=
  db.filter (pendingForDoctorPred did)

/-- `WHERE doctor_id = ? AND status IN ('AI_generated',
'pending_doctor_review')` — the filter of
`Recommendation.count_pending_by_doctor_id` (lines 93-104). -/
def countPendingPred (did : String) (r : Recommendation) : Bool :=
  r.doctor_id == some did &&
    (r.status == "AI_generated" || r.status == "pending_doctor_review")

/-- `Recommendation.count_pending_by_doctor_id`: `SELECT COUNT(*)` over
`countPendingPred`. -/
def Recommendation.count_pending_by_doctor_id (db : List Recommendation) (did : String) :
    Nat :=
  (db.filter (countPendingPred did)).length

/-! ## Review routes (`backend/api/routes/recommendation_routes.py`) -/
/-- Request body `DoctorReviewRequest`
(`backend/api/schemas/recommendation_schemas.py`). -/
structure DoctorReviewRequest where
  doctor_id : String
  doctor_notes : Option String := none
  approved_treatment : Option String := none
  approved_lifestyle : Option String := none
deriving Repr, DecidableEq

/-- Outcome of a review route: HTTP 404 / 400 / 500 / 200 with the JSON
`status` field of the success body. -/
inductive RouteOutcome where
  | notFound
  | badRequest (detail : String)
  | serverError (detail : String)
  | success (status : String)
deriving Repr, DecidableEq

/-- Route `PUT /recommendations/s/approve` (`approve_recommendation`,
lines 172-204): look the row up, call `approve`, 500 if the write fails.
There is no check of the row's current `status`. -/
def approve_recommendation (db : List Recommendation) (rid : String)
    (req : DoctorReviewRequest) (now : String) (writeOk : Bool) :
    RouteOutcome × List Recommendation :=
  match getByRecommendationId db rid with
  | none => (.notFound, db)
  | some rec =>
    let rec1 := rec.approve req.doctor_id (req.doctor_notes.getD "") now
    if writeOk then (.success "approved_by_doctor", writeRec db rec1)
    else (.serverError "Failed to approve recommendation.", db)

/-- Route `PUT /recommendations/s/modify-approve`
(`modify_and_approve_recommendation`, lines 207-247): 400 when either
replacement text is missing/empty, otherwise `modify_and_approve`.  No check
of the row's current `status`. -/
def modify_and_approve_recommendation (db : List Recommendation) (rid : String)
    (req : DoctorReviewRequest) (now : String) (writeOk : Bool) :
    RouteOutcome × List Recommendation :=
  match getByRecommendationId db rid with
  | none => (.notFound, db)
  | some rec =>
    if !(optTruthy req.approved_treatment) || !(optTruthy req.approved_lifestyle) then
      (.badRequest "Both approved_treatment and approved_lifestyle are required for modification.", db)
    else
      let rec1 := rec.modify_and_approve req.doctor_id (req.approved_treatment.getD "")
        (req.approved_lifestyle.getD "") (req.doctor_notes.getD "") now
      if writeOk then (.success "modified_and_approved_by_doctor", writeRec db rec1)
      else (.serverError "Failed to modify and approve recommendation.", db)

/-- Route `PUT /recommendations/s/reject` (`reject_recommendation`,
lines 250-288): 400 when `doctor_notes` is missing/empty, otherwise
`reject`.  No check of the row's current `status`. -/
def reject_recommendation (db : List Recommendation) (rid : String)
    (req : DoctorReviewRequest) (now : String) (writeOk : Bool) :
    RouteOutcome × List Recommendation :=
  match getByRecommendationId db rid with
  | none => (.notFound, db)
  | some rec =>
    if !(optTruthy req.doctor_notes) then
      (.badRequest "Doctor notes are required when rejecting a recommendation.", db)
    else
      let rec1 := rec.reject req.doctor_id (req.doctor_notes.getD "") now
      if writeOk then (.success "rejected_by_doctor", writeRec db rec1)
      else (.serverError "Failed to reject recommendation.", db)

/-! ## Doctor rows (`backend/models/user_model.py`, class `Doctor`)

Only the columns the allocation policy reads are modelled
(`doctor_id`, `user_id`, `specialization`, `is_available`,
`last_assignment_date`); license/contact/affiliation metadata is never
consulted by the selector.  The SQL `JOIN users u ON d.user_id = u.user_id`
is dropped: `doctors.user_id` is a `NOT NULL` foreign key into `users`, so
the join never filters rows. -/
structure Doctor where
  doctor_id : String
  user_id : String
  specialization : Option String := none
  is_available : Bool := true
  last_assignment_date : Option String := none
deriving Repr, DecidableEq

/-- SQLite `ORDER BY last_assignment_date ASC`: `NULL` sorts before every
TEXT value, and TEXT values (ISO-8601 timestamps) compare
lexicographically. -/
def dateLe : Option String → Option String → Bool
  | none, _ => true
  | some _, none => false
  | some a, some b => decide (a ≤ b)

/-- Comparison of two doctors by `last_assignment_date`. -/
def doctorLe (a b : Doctor) : Bool :=
  dateLe a.last_assignment_date b.last_assignment_date

/-- Insert a doctor into a date-ordered list. -/
def insertByDate (d : Doctor) : List Doctor → List Doctor
  | [] => [d]
  | e :: es => if doctorLe d e then d :: e :: es else e :: insertByDate d es

/-- The `ORDER BY last_assignment_date ASC` of the two selection queries,
modelled as insertion sort. -/
def sortByDate : List Doctor → List Doctor
  | [] => []
  | d :: ds => insertByDate d (sortByDate ds)

/-- `WHERE d.is_available = 1 AND d.specialization = ?`. -/
def availBySpecPred (spec : String) (d : Doctor) : Bool :=
  d.is_available && d.specialization == some spec

/-- `Doctor.get_available_doctors_by_specialization`: available doctors of
the given specialization, oldest `last_assignment_date` first (nulls
first). -/
def Doctor.get_available_doctors_by_specialization (db : List Doctor) (spec : String) :
    List Doctor :=
  sortByDate (db.filter (availBySpecPred spec))

/-- `Doctor.get_all_available_doctors`: every available doctor, same
ordering. -/
def Doctor.get_all_available_doctors (db : List Doctor) : List Doctor :=
  sortByDate (db.filter (fun d => d.is_available))

/-- The specialist-selection step of `auto_assign_doctor` (lines 89-103):
query the matching available doctors and take `available_doctors[0]`. -/
def selectSpecialistDoctor (db : List Doctor) (spec : String) : Option Doctor :=
  (Doctor.get_available_doctors_by_specialization db spec).head?

/-- `c` is a least-recently-assigned member of `pool`: it belongs to the
pool, its date key is `dateLe`-below every pool member, and it is strictly
below every member with a different date key. -/
def isLeastRecentlyAssigned (pool : List Doctor) (c : Doctor) : Bool :=
  pool.contains c &&
  pool.all (fun d => doctorLe c d) &&
  pool.all (fun d => d.last_assignment_date == c.last_assignment_date || !(doctorLe d c))

/-! ## Patient-doctor mappings (`backend/models/patient_doctor_mapping.py`) -/
/-- One row of the `patient_doctor_mapping` table; `is_active` is the
source's integer flag (1 active, 0 inactive). -/
structure PDMapping where
  mapping_id : String
  patient_id : String
  doctor_id : String
  assigned_date : String
  is_active : Nat := 1
deriving Repr, DecidableEq

/-- The row predicate `patient_id = ? AND doctor_id = ? AND is_active = 1`
shared by the deactivation UPDATE, `find_active_mapping` and the
exclusivity invariant. -/
def activePairPred (p d : String) (r : PDMapping) : Bool :=
  r.patient_id == p && r.doctor_id == d && r.is_active == 1

/-- `UPDATE patient_doctor_mapping SET is_active = 0 WHERE patient_id = ?
AND doctor_id = ? AND is_active = 1` (the first statement of
`PatientDoctorMapping.save`; its Boolean result is ignored by the source,
and the plain UPDATE is modelled as executed). -/
def deactivatePair (db : List PDMapping) (p d : String) : List PDMapping :=
  db.map (fun r => if activePairPred p d r then { r with is_active := 0 } else r)

/-- `PatientDoctorMapping.save` (lines 18-59): when the new row is active,
first deactivate any active row of the same (patient, doctor) pair; then
`UPDATE` the row whose `mapping_id` already exists, or `INSERT` a fresh row.
`execOk` is the success Boolean of that final `execute_query` (the returned
value); on failure the write is rolled back but the deactivation, a separate
already-committed statement, stands. -/
def PDMapping.save (m : PDMapping) (db : List PDMapping) (execOk : Bool) :
    Bool × List PDMapping :=
  let db1 := if m.is_active == 1 then deactivatePair db m.patient_id m.doctor_id else db
  if execOk then
    match db1.find? (fun r => r.mapping_id == m.mapping_id) with
    | some _ =>
      (true, db1.map (fun r =>
        if r.mapping_id == m.mapping_id then
          { r with patient_id := m.patient_id, doctor_id := m.doctor_id,
                   assigned_date := m.assigned_date, is_active := m.is_active }
        else r))
    | none => (true, db1 ++ [m])
  else (false, db1)

/-- `PatientDoctorMapping.find_active_mapping`. -/
def PDMapping.find_active_mapping (db : List PDMapping) (p d : String) :
    Option PDMapping :=
  db.find? (activePairPred p d)

/-- `PatientDoctorMapping.create` (lines 61-76): refuse (returning `False`,
no write) when an active mapping for the pair already exists, otherwise save
a fresh row (`freshId` is the generated `uuid4`, `now` the constructor's
`datetime.now().isoformat()`). -/
def PDMapping.create (db : List PDMapping) (p d : String) (is_active : Bool)
    (freshId now : String) (execOk : Bool) : Bool × List PDMapping :=
  match PDMapping.find_active_mapping db p d with
  | some _ => (false, db)
  | none =>
    PDMapping.save
      { mapping_id := freshId, patient_id := p, doctor_id := d,
        assigned_date := now, is_active := if is_active then 1 else 0 } db execOk

/-- Number of active rows for a (patient, doctor) pair. -/
def activeCount (db : List PDMapping) (p d : String) : Nat :=
  (db.filter (activePairPred p d)).length

/-! ## Health reports and specialization resolution
(`backend/services/auto_allocator.py`) -/
/-- Abstraction of the `extracted_data_json` TEXT column as read by
`get_report_type_from_extracted_data`: either a non-empty string that
`json.loads` rejects, or a decoded object whose `metrics` mapping carries
the given keys (`data.get('metrics', {})`). -/
inductive ExtractedJson where
  | invalid
  | valid (metrics : List String)
deriving Repr, DecidableEq

/-- Modelled from the spec: the `HealthReport` model class
(`backend/models/health_report_model.py` is not among the shared sources).
Its columns follow the `health_reports` table of `database/init_db.py` and
§3 of the specification; only the columns the pipeline and allocator read
are carried. -/
structure HealthReport where
  report_id : String
  patient_id : String
  file_name : String := ""
  file_path : String := ""
  report_type : Option String := none
  extracted_data_json : Option ExtractedJson := none
  assigned_doctor_id : Option String := none
  processing_status : String := "uploaded"
deriving Repr, DecidableEq

/-- Modelled from the spec: `HealthReport.get_by_report_id`, a `fetch_one`
on the primary key. -/
def getReportById (reports : List HealthReport) (rid : String) :
    Option HealthReport :=
  reports.find? (fun r => r.report_id == rid)

/-- Modelled from the spec: the table write performed by a successful
`HealthReport.save` — the row with the report's id is replaced by the
in-memory object.  A failed save (the method returning `False`) leaves the
table unchanged; callers receive the Boolean. -/
def writeReport (reports : List HealthReport) (r : HealthReport) :
    List HealthReport :=
  reports.map (fun x => if x.report_id == r.report_id then r else x)

/-- `get_report_type_from_extracted_data` (auto_allocator.py lines 16-37):
`None`/empty input and undecodable JSON give `None`; lipid-panel markers
give "Lipid Profile", thyroid markers "Thyroid Function Test", anything
else "General Checkup". -/
def get_report_type_from_extracted_data : Option ExtractedJson → Option String
  | none => none
  | some .invalid => none
  | some (.valid metrics) =>
    if metrics.contains "Total Cholesterol" || metrics.contains "LDL" then
      some "Lipid Profile"
    else if metrics.contains "TSH" || metrics.contains "T3" then
      some "Thyroid Function Test"
    else
      some "General Checkup"

/-- Modelled from the spec:
`ReportSpecialistMapping.get_specialization_by_report_type`
(`backend/models/report_specialist_mapping.py` is not among the shared
sources; per §2/§3 it is a read-only lookup keyed by report type over the
`report_specialist_mapping` table). -/
def get_specialization_by_report_type (specMap : List (String × String))
    (rt : String) : Option String :=
  (specMap.find? (fun kv => kv.1 == rt)).map Prod.snd

/-- First resolution step (auto_allocator.py lines 61-69): when the report
declares a truthy type, look it up (lookup errors are caught to `None`). -/
def declaredSpec (specMap : List (String × String)) (rt : Option String) :
    Option String :=
  if optTruthy rt then get_specialization_by_report_type specMap (rt.getD "")
  else none

/-- Second resolution step (auto_allocator.py lines 71-80): only when the
first step produced nothing truthy and extracted data exists, look up the
heuristically inferred report type (again catching errors to `None`). -/
def inferredSpec (specMap : List (String × String)) (spec1 : Option String)
    (ed : Option ExtractedJson) : Option String :=
  if !(optTruthy spec1) && ed.isSome then
    match get_report_type_from_extracted_data ed with
    | some inferred => get_specialization_by_report_type specMap inferred
    | none => spec1
  else spec1

/-- The specialization-resolution block of `auto_assign_doctor`
(auto_allocator.py lines 60-86): declared-type lookup, then heuristic
inference, then the `"General Physician"` fallback (line 82-85: applied
whenever the result so far is `None` or empty). -/
def resolveSpecialization (specMap : List (String × String)) (rt : Option String)
    (ed : Option ExtractedJson) : String :=
  let spec2 := inferredSpec specMap (declaredSpec specMap rt) ed
  if optTruthy spec2 then spec2.getD "" else "General Physician"

/-! ## The allocator (`auto_assign_doctor`, auto_allocator.py lines 39-172) -/
/-- The persistent state the pipeline and allocator touch. -/
structure WorldState where
  reports : List HealthReport
  doctors : List Doctor
  pdMappings : List PDMapping
  specialistMap : List (String × String)
  recommendations : List Recommendation := []
deriving Repr, DecidableEq

/-- Success Booleans of the persistence calls the allocator makes:
`report.save()`, the mapping save's final `execute_query`, and
`update_last_assignment_date`. -/
structure AllocOracle where
  reportSaveOk : Bool := true
  mapExecOk : Bool := true
  stampOk : Bool := true
deriving Repr, DecidableEq

/-- `auto_assign_doctor`: returns the source's Boolean and the updated
state.  Already-assigned reports short-circuit to `True` with no writes;
a missing report gives `False`; with no doctor available at all the report
is saved as `pending_manual_assignment` and `False` returned; otherwise the
report is saved as `doctor_assigned` (failure of that save returns `False`
with no other writes), the mapping is created and the doctor stamped — the
Booleans of those two last steps are only logged, never propagated. -/
def auto_assign_doctor (w : WorldState) (report_id freshMapId now : String)
    (o : AllocOracle) : Bool × WorldState :=
  match getReportById w.reports report_id with
  | none => (false, w)
  | some report =>
    if optTruthy report.assigned_doctor_id then (true, w)
    else
      let spec := resolveSpecialization w.specialistMap report.report_type
        report.extracted_data_json
      let assigned : Option Doctor :=
        match selectSpecialistDoctor w.doctors spec with
        | some d => some d
        | none => (Doctor.get_all_available_doctors w.doctors).head?
      match assigned with
      | none =>
        let report1 := { report with processing_status := "pending_manual_assignment" }
        if o.reportSaveOk then
          (false, { w with reports := writeReport w.reports report1 })
        else (false, w)
      | some d =>
        let report1 := { report with assigned_doctor_id := some d.doctor_id,
                                     processing_status := "doctor_assigned" }
        if !o.reportSaveOk then (false, w)
        else
          let w1 := { w with reports := writeReport w.reports report1 }
          let w2 := { w1 with pdMappings :=
            (PDMapping.create w1.pdMappings report.patient_id d.doctor_id true
              freshMapId now o.mapExecOk).2 }
          let w3 :=
            if o.stampOk then
              { w2 with doctors := w2.doctors.map (fun x =>
                  if x.doctor_id == d.doctor_id then
                    { x with last_assignment_date := some now }
                  else x) }
            else w2
          (true, w3)

/-! ## The pipeline (`DocumentParserService`, `backend/services/document_parser.py`) -/
/-- The fields of the `parse_report` result dictionary the pipeline reads
(`patient_info` is stored inside the JSON blob but never read again by the
modelled flow). -/
structure ParseResult where
  raw_text : String
  metrics : List String
  errors : List String
deriving Repr, DecidableEq

/-- Python `str.strip()` with default whitespace, written with structural
recursion on the character list (so that concrete runs reduce). -/
def pyStrip (s : String) : String :=
  String.mk (((s.data.dropWhile Char.isWhitespace).reverse.dropWhile
    Char.isWhitespace).reverse)

/-- `DocumentParserService.parse_report` (lines 23-101), as a function of
the extraction collaborator's output: `none` when the raw-text extractor
raised (lines 56-73, empty result with an error), otherwise the returned
text; text that is missing/empty or of trimmed length below 20 is replaced
by `""` with an error recorded and no metric parsing (lines 51-55, 93-94).
`metricsOut` is what `MetricExtractor` yields on good text (an extractor
exception gives `[]`, lines 86-92). -/
def parse_report (extractorOutput : Option String) (metricsOut : List String) :
    ParseResult :=
  match extractorOutput with
  | none => { raw_text := "", metrics := [], errors := ["text extraction error"] }
  | some t =>
    if t == "" || (pyStrip t).length < 20 then
      { raw_text := "", metrics := [],
        errors := ["Insufficient text extracted from file."] }
    else
      { raw_text := t, metrics := metricsOut, errors := [] }

/-- The structured dictionary `process_report_pipeline` returns; absent keys
of the respective branch are `none`.  (The success dictionary's `report_id`
key merely echoes the input and is not carried.) -/
structure PipelineResult where
  success : Bool
  step : Option String := none
  error : Option String := none
  status : Option String := none
  assigned_doctor_id : Option String := none
  extracted : Option Bool := none
  recommendation_attempted : Option Bool := none
deriving Repr, DecidableEq

/-- The AI-generation payload (`generate_ai_recommendations` result). -/
structure AiData where
  treatment_suggestions : String := ""
  lifestyle_recommendations : String := ""
  priority : String := "Medium"
deriving Repr, DecidableEq

/-- How the AI call ends, as the pipeline distinguishes it (lines 184-233):
data, falsy result, a raised exception, or an unavailable module
(`ImportError`). -/
inductive AiOutcome where
  | ok (data : AiData)
  | noData
  | raised
  | importError
deriving Repr, DecidableEq

/-- Success Booleans of the pipeline's own persistence calls:
`report.save()` after extraction (line 144, checked), the recommendation
update/create `execute_query` (lines 190-215, result only logged), and the
final `report.save()` (lines 222/229/233, result ignored). -/
structure PipelineOracle where
  saveExtractedOk : Bool := true
  alloc : AllocOracle := {}
  recWriteOk : Bool := true
  finalSaveOk : Bool := true
deriving Repr, DecidableEq

/-- The success dictionary of `process_report_pipeline` (lines 238-245),
built from the current in-memory report object. -/
def finalResult (report : HealthReport) (parsed : ParseResult) : PipelineResult :=
  { success := true
    status := some report.processing_status
    assigned_doctor_id := report.assigned_doctor_id
    extracted := some (parsed.raw_text != "")
    recommendation_attempted := some
      (report.processing_status == "pending_doctor_review"
        || report.processing_status == "pending_ai_analysis"
        || report.processing_status == "ai_generation_failed") }

/-- Step 3 of the pipeline (lines 173-236): only from `doctor_assigned`,
run the AI generator; on data, update the existing recommendation or create
a fresh one — a failed write is only logged — and set
`pending_doctor_review`; a falsy AI result gives `pending_ai_analysis`, an
exception `ai_generation_failed`, a missing module `doctor_assigned_no_ai`.
The closing `report.save()` result is ignored. -/
def aiStage (w : WorldState) (report : HealthReport) (parsed : ParseResult)
    (ai : AiOutcome) (freshRecId now : String) (recWriteOk finalSaveOk : Bool) :
    PipelineResult × WorldState :=
  if report.processing_status == "doctor_assigned" then
    let step3 : String × WorldState :=
      match ai with
      | .ok data =>
        let w1 :=
          match w.recommendations.find? (fun r => r.report_id == report.report_id) with
          | some rec =>
            let rec1 := rec.update_status "pending_doctor_review"
              report.assigned_doctor_id (some "") (some data.treatment_suggestions)
              (some data.lifestyle_recommendations) now
            if recWriteOk then
              { w with recommendations := writeRec w.recommendations rec1 }
            else w
          | none =>
            if recWriteOk then
              { w with recommendations := w.recommendations ++
                [{ recommendation_id := freshRecId, report_id := report.report_id,
                   patient_id := report.patient_id,
                   ai_generated_treatment := some data.treatment_suggestions,
                   ai_generated_lifestyle := some data.lifestyle_recommendations,
                   ai_generated_priority := some data.priority,
                   doctor_id := report.assigned_doctor_id,
                   status := "pending_doctor_review",
                   created_at := now, last_updated_at := now }] }
            else w
        ("pending_doctor_review", w1)
      | .noData => ("pending_ai_analysis", w)
      | .raised => ("ai_generation_failed", w)
      | .importError => ("doctor_assigned_no_ai", w)
    let report1 := { report with processing_status := step3.1 }
    let w2 :=
      if finalSaveOk then
        { step3.2 with reports := writeReport step3.2.reports report1 }
      else step3.2
    (finalResult report1 parsed, w2)
  else
    (finalResult report parsed, w)

/-- `DocumentParserService.process_report_pipeline` (lines 107-254): load
the report, extract, persist the extraction outcome (`extracted` /
`failed_extraction`; a failed save aborts with step `save_extracted_data`),
auto-assign a doctor only from `extracted` (a `False` allocator aborts with
step `doctor_auto_assignment`; a refreshed report without a doctor aborts
with `doctor_verification`), then the AI stage, then the success
dictionary. -/
def process_report_pipeline (w : WorldState) (report_id : String)
    (extractorOutput : Option String) (metricsOut : List String)
    (ai : AiOutcome) (freshRecId freshMapId now : String) (o : PipelineOracle) :
    PipelineResult × WorldState :=
  match getReportById w.reports report_id with
  | none =>
    ({ success := false, step := some "load_report",
       error := some "Report not found." }, w)
  | some report0 =>
    let parsed := parse_report extractorOutput metricsOut
    let report1 :=
      if parsed.raw_text == "" then
        { report0 with processing_status := "failed_extraction",
                       extracted_data_json := some (.valid []) }
      else
        { report0 with processing_status := "extracted",
                       extracted_data_json := some (.valid parsed.metrics) }
    if !o.saveExtractedOk then
      ({ success := false, step := some "save_extracted_data",
         error := some "Failed to update report with extracted data." }, w)
    else
      let w1 := { w with reports := writeReport w.reports report1 }
      if report1.processing_status == "extracted" then
        match auto_assign_doctor w1 report_id freshMapId now o.alloc with
        | (false, w2) =>
          ({ success := false, step := some "doctor_auto_assignment",
             error := some "No suitable doctor could be assigned." }, w2)
        | (true, w2) =>
          match getReportById w2.reports report_id with
          | none =>
            ({ success := false, step := some "doctor_verification",
               error := some "Doctor assignment did not persist." }, w2)
          | some report2 =>
            if !(optTruthy report2.assigned_doctor_id) then
              ({ success := false, step := some "doctor_verification",
                 error := some "Doctor assignment did not persist." }, w2)
            else
              aiStage w2 report2 parsed ai freshRecId now o.recWriteOk o.finalSaveOk
      else
        (finalResult report1 parsed, w1)

/-- The report row as the pipeline saves it after a successful extraction. -/
def extractedVersion (r : HealthReport) (parsed : ParseResult) : HealthReport :=
  { r with processing_status := "extracted",
           extracted_data_json := some (.valid parsed.metrics) }

/-- The report row as the pipeline saves it after a failed extraction. -/
def failedExtractionVersion (r : HealthReport) : HealthReport :=
  { r with processing_status := "failed_extraction",
           extracted_data_json := some (.valid []) }

/-- The report row as the allocator saves it when no doctor exists. -/
def pendingManualVersion (r : HealthReport) : HealthReport :=
  { r with processing_status := "pending_manual_assignment" }

/-! ## Concrete rows used by counterexamples and witnesses -/
/-- A freshly uploaded, unassigned report. -/
def uploadedReport : HealthReport := { report_id := "rep-1", patient_id := "pat-1" }

/-- An available general physician. -/
def gpDoctor : Doctor :=
  { doctor_id := "doc-1", user_id := "doc-1",
    specialization := some "General Physician", is_available := true }

/-- A world with one uploaded report and one available doctor. -/
def readyWorld : WorldState :=
  { reports := [uploadedReport], doctors := [gpDoctor], pdMappings := [],
    specialistMap := [] }

/-- The same world with no doctor at all. -/
def noDoctorWorld : WorldState :=
  { reports := [uploadedReport], doctors := [], pdMappings := [], specialistMap := [] }

/-- Extractor output comfortably above the 20-character minimum. -/
def longText : String := "Patient blood analysis values all within expected range"

/-- An already-assigned report and its world, for C5. -/
def assignedReport : HealthReport :=
  { report_id := "rep-2", patient_id := "pat-2",
    assigned_doctor_id := some "doc-1", processing_status := "doctor_assigned" }

def assignedWorld : WorldState :=
  { reports := [assignedReport], doctors := [gpDoctor], pdMappings := [],
    specialistMap := [] }

/-- A pool with two available cardiologists (one never assigned), an
unavailable cardiologist and an available dermatologist. -/
def doctorPool : List Doctor :=
  [ { doctor_id := "doc-a", user_id := "doc-a", specialization := some "Cardiologist",
      is_available := true, last_assignment_date := some "2024-03-01T00:00:00" },
    { doctor_id := "doc-b", user_id := "doc-b", specialization := some "Cardiologist",
      is_available := true, last_assignment_date := none },
    { doctor_id := "doc-c", user_id := "doc-c", specialization := some "Cardiologist",
      is_available := false, last_assignment_date := none },
    { doctor_id := "doc-d", user_id := "doc-d", specialization := some "Dermatologist",
      is_available := true, last_assignment_date := some "2023-01-01T00:00:00" } ]

/-- An existing active mapping row for the pair (`pat-1`, `doc-1`). -/
def pdmRow1 : PDMapping :=
  { mapping_id := "map-1", patient_id := "pat-1", doctor_id := "doc-1",
    assigned_date := "2024-01-01T00:00:00", is_active := 1 }

/-- A new active mapping for the same pair, under a fresh id. -/
def pdmNew : PDMapping :=
  { mapping_id := "map-2", patient_id := "pat-1", doctor_id := "doc-1",
    assigned_date := "2024-02-02T00:00:00", is_active := 1 }

/-- An already-reviewed recommendation row (status `approved_by_doctor`). -/
def reviewedRec : Recommendation :=
  { recommendation_id := "rec-1", report_id := "rep-1", patient_id := "pat-1"
    ai_generated_treatment := some "ai-treatment"
    ai_generated_lifestyle := some "ai-lifestyle"
    doctor_id := some "doc-1", doctor_notes := some "first review"
    status := "approved_by_doctor"
    reviewed_date := some "2024-01-01T00:00:00+00:00"
    approved_treatment := some "ai-treatment"
    approved_lifestyle := some "ai-lifestyle"
    created_at := "2023-12-31T00:00:00+00:00"
    last_updated_at := "2024-01-01T00:00:00+00:00" }

/-- A review request carrying notes and both replacement texts. -/
def fullReviewReq : DoctorReviewRequest :=
  { doctor_id := "doc-2", doctor_notes := some "second opinion"
    approved_treatment := some "new treatment", approved_lifestyle := some "new lifestyle" }

/-- A recommendation row still in `AI_generated` state, assigned to `doc-1`. -/
def aiGeneratedRec : Recommendation :=
  { recommendation_id := "rec-2", report_id := "rep-2", patient_id := "pat-2"
    doctor_id := some "doc-1", status := "AI_generated"
    created_at := "2024-01-02T00:00:00+00:00"
    last_updated_at := "2024-01-02T00:00:00+00:00" }

theorem dateLe_refl (a : Option String) : dateLe a a = true := by
  cases a <;> simp [dateLe]

theorem dateLe_total (a b : Option String) : dateLe a b = true ∨ dateLe b a = true := by
  cases a <;> cases b <;> simp [dateLe]
  exact le_total _ _

theorem dateLe_trans {a b c : Option String} (hab : dateLe a b = true)
    (hbc : dateLe b c = true) : dateLe a c = true := by
  cases a <;> cases b <;> cases c <;> simp_all [dateLe]
  exact le_trans hab hbc

theorem dateLe_antisymm {a b : Option String} (hab : dateLe a b = true)
    (hba : dateLe b a = true) : a = b := by
  cases a with
  | none =>
    cases b with
    | none => rfl
    | some v => simp [dateLe] at hba
  | some u =>
    cases b with
    | none => simp [dateLe] at hab
    | some v =>
      simp only [dateLe, decide_eq_true_eq] at hab hba
      exact congrArg some (le_antisymm hab hba)

theorem mem_insertByDate {x d : Doctor} (l : List Doctor) :
    x ∈ insertByDate d l ↔ x = d ∨ x ∈ l := by
  induction l with
  | nil => simp [insertByDate]
  | cons e es ih =>
    simp only [insertByDate]
    split
    · simp [List.mem_cons]
    · simp [List.mem_cons, ih]
      tauto

theorem mem_sortByDate {x : Doctor} (l : List Doctor) :
    x ∈ sortByDate l ↔ x ∈ l := by
  induction l with
  | nil => simp [sortByDate]
  | cons d ds ih => simp [sortByDate, mem_insertByDate, ih]

/-- The head of the insertion-sorted list is `dateLe`-below every element of
the sorted list. -/
theorem sortByDate_head_min (l : List Doctor) :
    ∀ c cs, sortByDate l = c :: cs → ∀ x ∈ sortByDate l, doctorLe c x = true := by
  induction l with
  | nil => intro c cs h; simp [sortByDate] at h
  | cons a t ih =>
    intro c cs h x hx
    rw [sortByDate] at h hx
    cases hst : sortByDate t with
    | nil =>
      rw [hst] at h hx
      simp only [insertByDate] at h hx
      rw [List.mem_singleton] at hx
      cases h
      rw [hx]
      exact dateLe_refl _
    | cons c' cs' =>
      rw [hst] at h hx
      simp only [insertByDate] at h hx
      by_cases hle : doctorLe a c' = true
      · rw [if_pos hle] at h hx
        obtain ⟨rfl, -⟩ : a = c ∧ (c' :: cs' = cs) := by
          injection h with h1 h2; exact ⟨h1.symm ▸ rfl, h2⟩
        rcases List.mem_cons.mp hx with rfl | hx'
        · exact dateLe_refl _
        · have hc'x := ih c' cs' hst x (hst ▸ hx')
          exact dateLe_trans hle hc'x
      · rw [if_neg hle] at h hx
        obtain ⟨rfl, -⟩ : c' = c ∧ (insertByDate a cs' = cs) := by
          injection h with h1 h2; exact ⟨h1.symm ▸ rfl, h2⟩
        have hc'a : doctorLe c' a = true := by
          rcases dateLe_total a.last_assignment_date c'.last_assignment_date with hh | hh
          · exact absurd hh hle
          · exact hh
        rcases List.mem_cons.mp hx with rfl | hx'
        · exact dateLe_refl _
        · rcases (mem_insertByDate cs').mp hx' with rfl | hx''
          · exact hc'a
          · exact ih c' cs' hst x (by rw [hst]; exact List.mem_cons_of_mem _ hx'')

/-! ## C4 -/
/-- C4: whenever at least one available doctor of the required
specialization exists, the selector returns a doctor of that pool whose
`last_assignment_date` is `dateLe`-minimal — never-assigned (`NULL`) doctors
first — and strictly below every pool member carrying a different date.  In
particular, with distinct dates the doctor with the oldest (or null)
timestamp is always the one selected. -/
theorem C4_selector_picks_least_recently_assigned (db : List Doctor) (spec : String)
    (hne : (db.filter (availBySpecPred spec)).isEmpty = false) :
    (selectSpecialistDoctor db spec).any
      (fun c => isLeastRecentlyAssigned (db.filter (availBySpecPred spec)) c) = true := by
  have hne' : db.filter (availBySpecPred spec) ≠ [] := by
    intro h; rw [h] at hne; simp at hne
  obtain ⟨x, hx⟩ := List.exists_mem_of_ne_nil _ hne'
  cases hs : sortByDate (db.filter (availBySpecPred spec)) with
  | nil =>
    exact absurd (hs ▸ (mem_sortByDate _).mpr hx) (List.not_mem_nil x)
  | cons c cs =>
    have hsel : selectSpecialistDoctor db spec = some c := by
      simp [selectSpecialistDoctor, Doctor.get_available_doctors_by_specialization, hs]
    rw [hsel]
    have hcmem : c ∈ db.filter (availBySpecPred spec) :=
      (mem_sortByDate _).mp (hs ▸ List.mem_cons_self c cs)
    have hmin : ∀ y ∈ db.filter (availBySpecPred spec), doctorLe c y = true := by
      intro y hy
      exact sortByDate_head_min _ c cs hs y (hs ▸ (mem_sortByDate _).mpr hy)
    simp only [Option.any_some, isLeastRecentlyAssigned, Bool.and_eq_true,
      List.all_eq_true]
    refine ⟨⟨List.elem_eq_true_of_mem hcmem, fun d hd => hmin d hd⟩, ?_⟩
    intro d hd
    by_cases heq : d.last_assignment_date = c.last_assignment_date
    · simp [heq]
    · have : doctorLe d c = false := by
        cases hdc : doctorLe d c with
        | false => rfl
        | true => exact absurd (dateLe_antisymm hdc (hmin d hd)) heq
      simp [this]

/-- Filtering a rewritten list is bounded by filtering the original with any
predicate that over-approximates the rewritten rows' membership. -/
theorem length_filter_map_le {α : Type} (g : α → α) (pred q : α → Bool)
    (db : List α) (h : ∀ r ∈ db, pred (g r) = true → q r = true) :
    ((db.map g).filter pred).length ≤ (db.filter q).length := by
  induction db with
  | nil => simp
  | cons r t ih =>
    have ht : ∀ x ∈ t, pred (g x) = true → q x = true :=
      fun x hx => h x (List.mem_cons_of_mem _ hx)
    simp only [List.map_cons, List.filter_cons]
    by_cases hp : pred (g r) = true
    · rw [h r (List.mem_cons_self r t) hp, hp]
      simpa using Nat.succ_le_succ (ih ht)
    · rw [Bool.of_not_eq_true hp]
      cases hq : q r
      · simpa using ih ht
      · simpa using Nat.le_succ_of_le (ih ht)

/-- After the deactivation UPDATE, no active row for the pair remains. -/
theorem activeCount_deactivatePair (db : List PDMapping) (p d : String) :
    activeCount (deactivatePair db p d) p d = 0 := by
  induction db with
  | nil => rfl
  | cons r t ih =>
    simp only [activeCount, deactivatePair, List.map_cons, List.filter_cons] at ih ⊢
    by_cases hr : activePairPred p d r = true
    · rw [if_pos hr]
      have : activePairPred p d { r with is_active := 0 } = false := by
        simp [activePairPred]
      rw [this]
      exact ih
    · rw [if_neg hr, Bool.of_not_eq_true hr]
      exact ih

/-- The deactivation UPDATE never increases the active count of any pair. -/
theorem activeCount_deactivatePair_le (db : List PDMapping) (p d p' d' : String) :
    activeCount (deactivatePair db p d) p' d' ≤ activeCount db p' d' := by
  apply length_filter_map_le
  intro r _ hr
  by_cases h : activePairPred p d r = true
  · rw [if_pos h] at hr
    simp [activePairPred] at hr
  · rwa [if_neg h] at hr

/-- The deactivation UPDATE leaves every `mapping_id` in place. -/
theorem deactivatePair_map_id (db : List PDMapping) (p d : String) :
    (deactivatePair db p d).map PDMapping.mapping_id = db.map PDMapping.mapping_id := by
  induction db with
  | nil => rfl
  | cons r t ih =>
    simp only [deactivatePair, List.map_cons] at ih ⊢
    rw [ih]
    by_cases h : activePairPred p d r = true
    · rw [if_pos h]
    · rw [if_neg h]

/-- With pairwise-distinct `mapping_id`s (the column is the PRIMARY KEY), at
most one row matches a given id. -/
theorem length_filter_id_le_one (db : List PDMapping) (i : String)
    (h : (db.map PDMapping.mapping_id).Nodup) :
    (db.filter (fun r => r.mapping_id == i)).length ≤ 1 := by
  induction db with
  | nil => simp
  | cons r t ih =>
    simp only [List.map_cons, List.nodup_cons] at h
    simp only [List.filter_cons]
    by_cases hr : (r.mapping_id == i) = true
    · rw [hr]
      have hnil : t.filter (fun x => x.mapping_id == i) = [] := by
        rw [List.filter_eq_nil_iff]
        intro x hx hxi
        apply h.1
        have hxe : x.mapping_id = i := by simpa using hxi
        have hre : r.mapping_id = i := by simpa using hr
        rw [hre, ← hxe]
        exact List.mem_map_of_mem PDMapping.mapping_id hx
      simp [hnil]
    · rw [Bool.of_not_eq_true hr]
      exact ih h.2

/-! ## C6 -/
/-- C6: assuming distinct `mapping_id`s (the PRIMARY KEY) and a database in
which every (patient, doctor) pair has at most one active row, (i) `save`
preserves the at-most-one-active-row-per-pair invariant — whether the final
write succeeds or fails — because an active save first deactivates every
active row of its pair; and (ii) `create` on a pair that already has an
active mapping returns `False` and leaves the table unchanged, so repeated
creation is idempotent. -/
theorem C6_single_active_mapping_per_pair (db : List PDMapping) (m : PDMapping)
    (execOk : Bool)
    (hId : (db.map PDMapping.mapping_id).Nodup)
    (hInv : ∀ p d, activeCount db p d ≤ 1) :
    (∀ p d, activeCount (m.save db execOk).2 p d ≤ 1) ∧
    (∀ p d act freshId now, (PDMapping.find_active_mapping db p d).isSome = true →
      PDMapping.create db p d act freshId now execOk = (false, db)) := by
  constructor
  · intro p d
    simp only [PDMapping.save]
    set db1 := if m.is_active == 1 then deactivatePair db m.patient_id m.doctor_id else db
      with hdb1
    have f1 : ∀ p' d', activeCount db1 p' d' ≤ activeCount db p' d' := by
      intro p' d'
      rw [hdb1]
      split
      · exact activeCount_deactivatePair_le db _ _ p' d'
      · exact le_refl _
    have f2 : (m.is_active == 1) = true →
        activeCount db1 m.patient_id m.doctor_id = 0 := by
      intro hact
      rw [hdb1, if_pos hact]
      exact activeCount_deactivatePair db _ _
    have f3 : (db1.map PDMapping.mapping_id).Nodup := by
      rw [hdb1]
      split
      · rw [deactivatePair_map_id]; exact hId
      · exact hId
    cases execOk with
    | false =>
      simpa using le_trans (f1 p d) (hInv p d)
    | true =>
      simp only [if_true]
      cases hfind : db1.find? (fun r => r.mapping_id == m.mapping_id) with
      | none =>
        simp only [activeCount, List.filter_append, List.length_append]
        by_cases hm : activePairPred p d m = true
        · have hpair : m.patient_id = p ∧ m.doctor_id = d ∧ (m.is_active == 1) = true := by
            simp only [activePairPred, Bool.and_eq_true, beq_iff_eq] at hm
            exact ⟨hm.1.1, hm.1.2, by simp [hm.2]⟩
          have hz : activeCount db1 p d = 0 := by
            rw [← hpair.1, ← hpair.2.1]
            exact f2 hpair.2.2
          simp only [activeCount] at hz
          simp [hz, List.filter_cons, hm]
        · have hmf : activePairPred p d m = false := Bool.of_not_eq_true hm
          have hz : (List.filter (activePairPred p d) [m]).length = 0 := by
            simp [hmf]
          rw [hz, Nat.add_zero]
          exact le_trans (f1 p d) (hInv p d)
      | some r0 =>
        by_cases hm : (m.patient_id == p && m.doctor_id == d && m.is_active == 1) = true
        · have hpair : m.patient_id = p ∧ m.doctor_id = d ∧ (m.is_active == 1) = true := by
            simp only [Bool.and_eq_true, beq_iff_eq] at hm
            exact ⟨hm.1.1, hm.1.2, by simp [hm.2]⟩
          have hz : activeCount db1 p d = 0 := by
            rw [← hpair.1, ← hpair.2.1]
            exact f2 hpair.2.2
          have hnil : db1.filter (activePairPred p d) = [] :=
            List.length_eq_zero.mp hz
          have hnone : ∀ r ∈ db1, activePairPred p d r = false := by
            intro r hr
            by_contra hc
            have := (List.filter_eq_nil_iff.mp hnil) r hr
            exact this (by revert hc; cases activePairPred p d r <;> simp)
          calc activeCount (db1.map (fun r =>
              if r.mapping_id == m.mapping_id then
                { r with patient_id := m.patient_id, doctor_id := m.doctor_id,
                         assigned_date := m.assigned_date, is_active := m.is_active }
              else r)) p d
              ≤ (db1.filter (fun r => r.mapping_id == m.mapping_id)).length := by
                apply length_filter_map_le
                intro r hr hpg
                by_cases hid : (r.mapping_id == m.mapping_id) = true
                · exact hid
                · rw [if_neg hid] at hpg
                  rw [hnone r hr] at hpg
                  exact absurd hpg (by simp)
            _ ≤ 1 := length_filter_id_le_one db1 m.mapping_id f3
        · calc activeCount (db1.map (fun r =>
              if r.mapping_id == m.mapping_id then
                { r with patient_id := m.patient_id, doctor_id := m.doctor_id,
                         assigned_date := m.assigned_date, is_active := m.is_active }
              else r)) p d
              ≤ (db1.filter (activePairPred p d)).length := by
                apply length_filter_map_le
                intro r hr hpg
                by_cases hid : (r.mapping_id == m.mapping_id) = true
                · rw [if_pos hid] at hpg
                  have : activePairPred p d
                      { r with patient_id := m.patient_id, doctor_id := m.doctor_id,
                               assigned_date := m.assigned_date, is_active := m.is_active } =
                      (m.patient_id == p && m.doctor_id == d && m.is_active == 1) := by
                    simp [activePairPred]
                  rw [this] at hpg
                  exact absurd hpg hm
                · rwa [if_neg hid] at hpg
            _ ≤ 1 := le_trans (f1 p d) (hInv p d)
  · intro p d act freshId now hsome
    cases hfind : PDMapping.find_active_mapping db p d with
    | none => rw [hfind] at hsome; simp at hsome
    | some r0 => simp [PDMapping.create, hfind]

/-! ## C5 -/
/-- C5: calling the allocator on a report whose `assigned_doctor_id` is
already set returns `True` (success) without touching any state: the
assigned doctor is unchanged and no mapping is created, for every oracle of
save outcomes. -/
theorem C5_realloc_is_noop (w : WorldState) (rid freshMapId now : String)
    (o : AllocOracle) (report : HealthReport)
    (hfind : getReportById w.reports rid = some report)
    (hassigned : optTruthy report.assigned_doctor_id = true) :
    auto_assign_doctor w rid freshMapId now o = (true, w) := by
  simp [auto_assign_doctor, hfind, hassigned]

/-! ## C9 -/
/-- `declaredSpec` is `None` or the value of a lookup. -/
theorem declaredSpec_none_or_lookup (specMap : List (String × String))
    (rt : Option String) :
    declaredSpec specMap rt = none ∨
    ∃ t, declaredSpec specMap rt = get_specialization_by_report_type specMap t := by
  unfold declaredSpec
  by_cases hrt : optTruthy rt = true
  · rw [if_pos hrt]
    exact Or.inr ⟨rt.getD "", rfl⟩
  · rw [if_neg hrt]
    exact Or.inl rfl

/-- `inferredSpec` is `None` or the value of a lookup, provided its input
already was. -/
theorem inferredSpec_none_or_lookup (specMap : List (String × String))
    (spec1 : Option String) (ed : Option ExtractedJson)
    (h : spec1 = none ∨
      ∃ t, spec1 = get_specialization_by_report_type specMap t) :
    inferredSpec specMap spec1 ed = none ∨
    ∃ t, inferredSpec specMap spec1 ed =
      get_specialization_by_report_type specMap t := by
  unfold inferredSpec
  by_cases hcond : (!(optTruthy spec1) && ed.isSome) = true
  · rw [if_pos hcond]
    cases hinf : get_report_type_from_extracted_data ed with
    | some inferred => exact Or.inr ⟨inferred, rfl⟩
    | none => exact h
  · rw [if_neg hcond]
    exact h

/-- C9: specialization resolution is total and never empty — for every
mapping table, declared report type (including null/unrecognized) and
extracted payload it yields a non-empty specialization that is either the
`"General Physician"` fallback or the value of some successful mapping
lookup; and with no declared type and no extracted data it is exactly the
fallback.  (In the source every lookup and the JSON decode are wrapped in
`try/except`, so no exception escapes; the model is correspondingly a total
function.) -/
theorem C9_resolution_total (specMap : List (String × String)) (rt : Option String)
    (ed : Option ExtractedJson) :
    resolveSpecialization specMap rt ed ≠ "" ∧
    (resolveSpecialization specMap rt ed = "General Physician" ∨
      ∃ t, get_specialization_by_report_type specMap t =
        some (resolveSpecialization specMap rt ed)) ∧
    resolveSpecialization specMap none none = "General Physician" := by
  have hshape := inferredSpec_none_or_lookup specMap (declaredSpec specMap rt) ed
    (declaredSpec_none_or_lookup specMap rt)
  simp only [resolveSpecialization]
  refine ⟨?_, ?_, rfl⟩
  · cases hopt : optTruthy (inferredSpec specMap (declaredSpec specMap rt) ed) with
    | false =>
      rw [if_neg (by simp)]
      decide
    | true =>
      rw [if_pos rfl]
      cases hval : inferredSpec specMap (declaredSpec specMap rt) ed with
      | none => rw [hval] at hopt; simp [optTruthy] at hopt
      | some s =>
        rw [hval] at hopt
        simpa [optTruthy] using hopt
  · cases hopt : optTruthy (inferredSpec specMap (declaredSpec specMap rt) ed) with
    | false =>
      rw [if_neg (by simp)]
      exact Or.inl rfl
    | true =>
      rw [if_pos rfl]
      rcases hshape with hnone | ⟨t, ht⟩
      · rw [hnone] at hopt; simp [optTruthy] at hopt
      · refine Or.inr ⟨t, ?_⟩
        rw [← ht]
        cases hval : inferredSpec specMap (declaredSpec specMap rt) ed with
        | none => rw [hval] at hopt; simp [optTruthy] at hopt
        | some s => simp [hval]

/-- Replacing the stored row by `r` (same id as the row previously found
under `rid`) makes `r` the row subsequently found under `rid`. -/
theorem getReportById_writeReport (reports : List HealthReport) (r0 r : HealthReport)
    (rid : String) (hfind : getReportById reports rid = some r0)
    (hid : r.report_id = r0.report_id) :
    getReportById (writeReport reports r) rid = some r := by
  have hr0 : (r0.report_id == rid) = true := by
    have h : List.find? (fun x => x.report_id == rid) reports = some r0 := hfind
    have h2 := List.find?_some h
    simpa using h2
  induction reports with
  | nil => simp [getReportById] at hfind
  | cons x xs ih =>
    simp only [getReportById, writeReport, List.map_cons] at hfind ⊢
    by_cases hx : (x.report_id == rid) = true
    · rw [List.find?_cons] at hfind
      rw [hx] at hfind
      have hx0 : x = r0 := Option.some.inj hfind
      have hxr : (x.report_id == r.report_id) = true := by
        rw [hx0, hid]
        exact beq_self_eq_true _
      rw [if_pos hxr]
      have hpr : (r.report_id == rid) = true := by
        rw [hid]; rw [hx0] at hx; exact hx
      rw [List.find?_cons]
      rw [hpr]
    · have hxf : (x.report_id == rid) = false := Bool.of_not_eq_true hx
      rw [List.find?_cons] at hfind
      rw [hxf] at hfind
      have hfind2 : List.find? (fun y => y.report_id == rid) xs = some r0 := hfind
      have hxr : (x.report_id == r.report_id) = false := by
        cases hc : (x.report_id == r.report_id) with
        | false => rfl
        | true =>
          have hce : x.report_id = r.report_id := by simpa using hc
          have : (x.report_id == rid) = true := by
            rw [hce, hid]; exact hr0
          rw [this] at hxf
          cases hxf
      rw [if_neg (by simp [hxr])]
      rw [List.find?_cons]
      rw [hxf]
      exact ih hfind2

/-- A pool of entirely unavailable doctors yields empty selection queries. -/
theorem filter_unavailable_nil (docs : List Doctor)
    (h : docs.all (fun d => !d.is_available) = true) (spec : String) :
    docs.filter (availBySpecPred spec) = [] ∧
    docs.filter (fun d => d.is_available) = [] := by
  rw [List.all_eq_true] at h
  constructor
  · rw [List.filter_eq_nil_iff]
    intro d hd
    have := h d hd
    simp only [availBySpecPred]
    simp only [Bool.not_eq_true'] at this
    simp [this]
  · rw [List.filter_eq_nil_iff]
    intro d hd
    have := h d hd
    simp only [Bool.not_eq_true'] at this
    simp [this]

/-- When no doctor is available at all, the allocator saves the report as
`pending_manual_assignment` and returns `False`, touching nothing else. -/
theorem auto_assign_no_doctor (w : WorldState) (rid freshMapId now : String)
    (o : AllocOracle) (report0 : HealthReport)
    (hfind : getReportById w.reports rid = some report0)
    (hun : optTruthy report0.assigned_doctor_id = false)
    (hnodoc : w.doctors.all (fun d => !d.is_available) = true)
    (hsaveOk : o.reportSaveOk = true) :
    auto_assign_doctor w rid freshMapId now o =
      (false, { w with reports := writeReport w.reports (pendingManualVersion report0) }) := by
  have h1 := (filter_unavailable_nil w.doctors hnodoc
    (resolveSpecialization w.specialistMap report0.report_type
      report0.extracted_data_json)).1
  have h2 := (filter_unavailable_nil w.doctors hnodoc "").2
  simp only [auto_assign_doctor, hfind, hun, Bool.false_eq_true, if_false,
    selectSpecialistDoctor, Doctor.get_available_doctors_by_specialization, h1,
    Doctor.get_all_available_doctors, h2, sortByDate, List.head?, hsaveOk, if_true,
    pendingManualVersion]

/-! ## C7 -/
/-- C7: with a loadable, unassigned report, good extraction, a successful
extraction save, and not a single available doctor, the pipeline returns the
structured failure `{success: false, step: doctor_auto_assignment}` (no
exception — the embedding is a total function), the stored report's
`processing_status` becomes `pending_manual_assignment`, and no mapping or
doctor row is touched. -/
theorem C7_no_doctor_pending_manual (w : WorldState) (rid : String)
    (exOut : Option String) (metrics : List String) (ai : AiOutcome)
    (freshRecId freshMapId now : String) (o : PipelineOracle)
    (report0 : HealthReport)
    (hfind : getReportById w.reports rid = some report0)
    (hun : optTruthy report0.assigned_doctor_id = false)
    (hnodoc : w.doctors.all (fun d => !d.is_available) = true)
    (hgood : ((parse_report exOut metrics).raw_text == "") = false)
    (hsave : o.saveExtractedOk = true)
    (hallocsave : o.alloc.reportSaveOk = true) :
    (process_report_pipeline w rid exOut metrics ai freshRecId freshMapId now o).1 =
      { success := false, step := some "doctor_auto_assignment",
        error := some "No suitable doctor could be assigned." } ∧
    (getReportById
        (process_report_pipeline w rid exOut metrics ai freshRecId freshMapId now o).2.reports
        rid).map HealthReport.processing_status = some "pending_manual_assignment" ∧
    (process_report_pipeline w rid exOut metrics ai freshRecId freshMapId now o).2.pdMappings =
      w.pdMappings ∧
    (process_report_pipeline w rid exOut metrics ai freshRecId freshMapId now o).2.doctors =
      w.doctors := by
  have hfind1 : getReportById
      (writeReport w.reports (extractedVersion report0 (parse_report exOut metrics))) rid =
      some (extractedVersion report0 (parse_report exOut metrics)) :=
    getReportById_writeReport w.reports report0 _ rid hfind rfl
  have halloc := auto_assign_no_doctor { w with reports := writeReport w.reports (extractedVersion report0 (parse_report exOut metrics)) } rid freshMapId now o.alloc (extractedVersion report0 (parse_report exOut metrics)) hfind1 hun hnodoc hallocsave
  have hfind2 : getReportById
      (writeReport (writeReport w.reports (extractedVersion report0 (parse_report exOut metrics)))
        (pendingManualVersion (extractedVersion report0 (parse_report exOut metrics)))) rid =
      some (pendingManualVersion (extractedVersion report0 (parse_report exOut metrics))) :=
    getReportById_writeReport _ (extractedVersion report0 (parse_report exOut metrics)) _ rid
      hfind1 rfl
  simp only [extractedVersion, pendingManualVersion] at halloc hfind2
  simp only [process_report_pipeline, hfind, hgood, hsave, Bool.not_true,
    Bool.false_eq_true, if_false, beq_self_eq_true, if_true, halloc]
  exact ⟨trivial, by rw [hfind2]; rfl, trivial, trivial⟩

/-! ## C8 -/
/-- C8 (amended): an upload whose extraction yields unusably short raw text
(length below 20, e.g. 5) ends with the stored report in
`failed_extraction`, the Doctor Selector never invoked — only the report row
changes, independent of the doctor pool, the AI outcome and the allocator's
oracle — but the returned dictionary is the SUCCESS dictionary: `success =
true` with `extracted = false` and `status = failed_extraction`.  Only a
failed save of the extraction outcome yields `success = false` (step
`save_extracted_data`, covered under C3). -/
theorem C8_failed_extraction_reports_success (w : WorldState) (rid : String)
    (exOut : Option String) (metrics : List String) (ai : AiOutcome)
    (freshRecId freshMapId now : String) (o : PipelineOracle)
    (report0 : HealthReport)
    (hfind : getReportById w.reports rid = some report0)
    (hshort : ((parse_report exOut metrics).raw_text == "") = true)
    (hsave : o.saveExtractedOk = true) :
    process_report_pipeline w rid exOut metrics ai freshRecId freshMapId now o =
      (finalResult (failedExtractionVersion report0) (parse_report exOut metrics),
       { w with reports := writeReport w.reports (failedExtractionVersion report0) }) ∧
    (finalResult (failedExtractionVersion report0) (parse_report exOut metrics)).success =
      true ∧
    (finalResult (failedExtractionVersion report0) (parse_report exOut metrics)).extracted =
      some false ∧
    (finalResult (failedExtractionVersion report0) (parse_report exOut metrics)).status =
      some "failed_extraction" := by
  have hne : (("failed_extraction" : String) == "extracted") = false := by decide
  refine ⟨?_, rfl, ?_, rfl⟩
  · simp only [process_report_pipeline, hfind, hshort, if_true, hsave, Bool.not_true,
      Bool.false_eq_true, if_false, failedExtractionVersion, hne]
  · simp only [finalResult, bne, hshort, Bool.not_true]

/-! ## C3 -/
/-- C3 (amended): a reported save failure while persisting the extraction
outcome, or while binding the doctor inside the allocator, halts that stage
with a structured failure and leaves the database untouched (the stored
`processing_status` keeps its last-written value); but a reported failure of
the recommendation create/update is only logged — the pipeline proceeds,
marks the report `pending_doctor_review` and returns the success dictionary,
as the closing concrete run (no recommendation row persisted, `success =
true`) shows. -/
theorem C3_save_failures :
    (∀ w rid exOut metrics ai freshRecId freshMapId now o,
      o.saveExtractedOk = false → (getReportById w.reports rid).isSome = true →
      process_report_pipeline w rid exOut metrics ai freshRecId freshMapId now o =
        ({ success := false, step := some "save_extracted_data",
           error := some "Failed to update report with extracted data." }, w)) ∧
    (∀ w rid freshMapId now o report0,
      o.reportSaveOk = false →
      getReportById w.reports rid = some report0 →
      optTruthy report0.assigned_doctor_id = false →
      auto_assign_doctor w rid freshMapId now o = (false, w)) ∧
    ((process_report_pipeline readyWorld "rep-1" (some longText) [] (.ok {}) "rec-8"
        "map-8" "2024-05-05T00:00:00" { recWriteOk := false }).1.success = true ∧
     (process_report_pipeline readyWorld "rep-1" (some longText) [] (.ok {}) "rec-8"
        "map-8" "2024-05-05T00:00:00" { recWriteOk := false }).2.recommendations = []) := by
  refine ⟨?_, ?_, rfl, rfl⟩
  · intro w rid exOut metrics ai freshRecId freshMapId now o hsf hsome
    obtain ⟨report0, hfind⟩ := Option.isSome_iff_exists.mp hsome
    simp only [process_report_pipeline, hfind, hsf, Bool.not_false, if_true]
  · intro w rid freshMapId now o report0 hsf hfind hun
    simp only [auto_assign_doctor, hfind, hun, Bool.false_eq_true, if_false]
    cases hsel : selectSpecialistDoctor w.doctors
        (resolveSpecialization w.specialistMap report0.report_type
          report0.extracted_data_json) with
    | some d => simp [hsel, hsf]
    | none =>
      cases hfb : (Doctor.get_all_available_doctors w.doctors).head? with
      | some d => simp [hsel, hfb, hsf]
      | none => simp [hsel, hfb, hsf]

/-- C5 witness: re-running allocation on the already-assigned concrete
report is a successful no-op. -/
theorem C5_realloc_witness :
    auto_assign_doctor assignedWorld "rep-2" "map-9" "2024-06-06T00:00:00" {} =
      (true, assignedWorld) :=
  C5_realloc_is_noop assignedWorld "rep-2" "map-9" "2024-06-06T00:00:00" {}
    assignedReport rfl rfl

/-- C7 witness: the pipeline on the doctorless concrete world. -/
theorem C7_no_doctor_witness :
    (process_report_pipeline noDoctorWorld "rep-1" (some longText) [] .noData "rec-9"
        "map-9" "2024-05-05T00:00:00" {}).1 =
      { success := false, step := some "doctor_auto_assignment",
        error := some "No suitable doctor could be assigned." } ∧
    (getReportById (process_report_pipeline noDoctorWorld "rep-1" (some longText) []
        .noData "rec-9" "map-9" "2024-05-05T00:00:00" {}).2.reports "rep-1").map
        HealthReport.processing_status = some "pending_manual_assignment" ∧
    (process_report_pipeline noDoctorWorld "rep-1" (some longText) [] .noData "rec-9"
        "map-9" "2024-05-05T00:00:00" {}).2.pdMappings = noDoctorWorld.pdMappings ∧
    (process_report_pipeline noDoctorWorld "rep-1" (some longText) [] .noData "rec-9"
        "map-9" "2024-05-05T00:00:00" {}).2.doctors = noDoctorWorld.doctors :=
  C7_no_doctor_pending_manual noDoctorWorld "rep-1" (some longText) [] .noData "rec-9"
    "map-9" "2024-05-05T00:00:00" {} uploadedReport rfl rfl rfl rfl rfl rfl

/-- C8 counterexample: extraction yielding the 5-character text `"abcde"`
ends in `failed_extraction`, yet the pipeline's returned `success` field is
`true` — the claim says it is `false`. -/
theorem C8_counterexample :
    (process_report_pipeline readyWorld "rep-1" (some "abcde") [] (.ok {}) "rec-9"
        "map-9" "2024-05-05T00:00:00" {}).1.success = true ∧
    ((process_report_pipeline readyWorld "rep-1" (some "abcde") [] (.ok {}) "rec-9"
        "map-9" "2024-05-05T00:00:00" {}).2.reports.map
        HealthReport.processing_status) = ["failed_extraction"] :=
  ⟨rfl, rfl⟩

/-- C8 witness: the amended theorem applied to the concrete world and the
5-character extraction. -/
theorem C8_failed_extraction_witness :
    process_report_pipeline readyWorld "rep-1" (some "abcde") [] .noData "rec-7" "map-7"
        "2024-05-05T00:00:00" {} =
      (finalResult (failedExtractionVersion uploadedReport)
        (parse_report (some "abcde") []),
       { readyWorld with reports := writeReport readyWorld.reports (failedExtractionVersion uploadedReport) }) :=
  (C8_failed_extraction_reports_success readyWorld "rep-1" (some "abcde") [] .noData
    "rec-7" "map-7" "2024-05-05T00:00:00" {} uploadedReport rfl rfl rfl).1

/-- C3 counterexample: with every save succeeding except the recommendation
write, the pipeline still reports `success = true` and no recommendation row
exists — the claim says a persistence failure in the
recommendation-creation stage is reported up as a failure result. -/
theorem C3_counterexample :
    (process_report_pipeline readyWorld "rep-1" (some longText) [] (.ok {}) "rec-9"
        "map-9" "2024-05-05T00:00:00" { recWriteOk := false }).1.success = true ∧
    (process_report_pipeline readyWorld "rep-1" (some longText) [] (.ok {}) "rec-9"
        "map-9" "2024-05-05T00:00:00" { recWriteOk := false }).2.recommendations = [] :=
  ⟨rfl, rfl⟩

/-- C3 witness: the two failure-halting conjuncts of the amended theorem at
concrete inputs. -/
theorem C3_save_failures_witness :
    process_report_pipeline readyWorld "rep-1" (some longText) [] .noData "rec-9" "map-9"
        "2024-05-05T00:00:00" { saveExtractedOk := false } =
      ({ success := false, step := some "save_extracted_data",
         error := some "Failed to update report with extracted data." }, readyWorld) ∧
    auto_assign_doctor readyWorld "rep-1" "map-9" "2024-05-05T00:00:00"
        { reportSaveOk := false } = (false, readyWorld) :=
  ⟨C3_save_failures.1 readyWorld "rep-1" (some longText) [] .noData "rec-9" "map-9"
      "2024-05-05T00:00:00" { saveExtractedOk := false } rfl rfl,
   C3_save_failures.2.1 readyWorld "rep-1" "map-9" "2024-05-05T00:00:00"
      { reportSaveOk := false } uploadedReport rfl rfl rfl⟩

/-- C4 witness: on the concrete pool the selected cardiologist is a
least-recently-assigned one (the never-assigned `doc-b`). -/
theorem C4_selector_witness :
    (selectSpecialistDoctor doctorPool "Cardiologist").any
      (fun c => isLeastRecentlyAssigned
        (doctorPool.filter (availBySpecPred "Cardiologist")) c) = true :=
  C4_selector_picks_least_recently_assigned doctorPool "Cardiologist" (by decide)

/-- C6 witness: saving the new active mapping over the existing one keeps at
most one active row for the pair, and `create` on the already-active pair is
a rejected no-op. -/
theorem C6_single_active_witness :
    activeCount ((PDMapping.save pdmNew [pdmRow1] true).2) "pat-1" "doc-1" ≤ 1 ∧
    PDMapping.create [pdmRow1] "pat-1" "doc-1" true "map-9"
      "2024-03-03T00:00:00" true = (false, [pdmRow1]) := by
  have hInv : ∀ p d, activeCount [pdmRow1] p d ≤ 1 := by
    intro p d
    simp only [activeCount]
    cases h : activePairPred p d pdmRow1 <;> simp [List.filter_cons, h]
  exact ⟨(C6_single_active_mapping_per_pair [pdmRow1] pdmNew true (by decide) hInv).1
      "pat-1" "doc-1",
    (C6_single_active_mapping_per_pair [pdmRow1] pdmNew true (by decide) hInv).2
      "pat-1" "doc-1" true "map-9" "2024-03-03T00:00:00" (by decide)⟩

/-! ## C1 -/
/-- C1 counterexample: the claim says that invoking `approve` on a
recommendation whose status is already `approved_by_doctor` fails with an
invalid-state error and leaves the record unmodified.  On the code it
succeeds (HTTP 200 with status `approved_by_doctor`) and the stored row is
changed (`reviewed_date`/`last_updated_at` are restamped): no route or model
method inspects the current status. -/
theorem C1_counterexample :
    (approve_recommendation [reviewedRec] "rec-1" fullReviewReq
        "2024-02-02T00:00:00+00:00" true).1 = .success "approved_by_doctor" ∧
    (approve_recommendation [reviewedRec] "rec-1" fullReviewReq
        "2024-02-02T00:00:00+00:00" true).2 ≠ [reviewedRec] := by
  constructor
  · rfl
  · decide

/-- C1 (amended): the review routes perform no state guard at all.  For any
stored recommendation — whatever its current `status`, reviewed or not —
`approve`, `modify-approve` (with both replacement texts) and `reject`
(with notes) report success and overwrite the stored row with the updated
one. -/
theorem C1_no_state_guard (db : List Recommendation) (rid now : String)
    (req : DoctorReviewRequest) (rec : Recommendation)
    (hfind : getByRecommendationId db rid = some rec)
    (hn : optTruthy req.doctor_notes = true)
    (ht : optTruthy req.approved_treatment = true)
    (hl : optTruthy req.approved_lifestyle = true) :
    approve_recommendation db rid req now true =
      (.success "approved_by_doctor",
        writeRec db (rec.approve req.doctor_id (req.doctor_notes.getD "") now)) ∧
    modify_and_approve_recommendation db rid req now true =
      (.success "modified_and_approved_by_doctor",
        writeRec db (rec.modify_and_approve req.doctor_id (req.approved_treatment.getD "")
          (req.approved_lifestyle.getD "") (req.doctor_notes.getD "") now)) ∧
    reject_recommendation db rid req now true =
      (.success "rejected_by_doctor",
        writeRec db (rec.reject req.doctor_id (req.doctor_notes.getD "") now)) := by
  refine ⟨?_, ?_, ?_⟩ <;>
    simp [approve_recommendation, modify_and_approve_recommendation,
      reject_recommendation, hfind, hn, ht, hl]

/-- C1 witness: the amended theorem applied to a concrete already-reviewed
row and a concrete request. -/
theorem C1_no_state_guard_witness :
    approve_recommendation [reviewedRec] "rec-1" fullReviewReq
        "2024-02-02T00:00:00+00:00" true =
      (.success "approved_by_doctor",
        writeRec [reviewedRec]
          (reviewedRec.approve "doc-2" "second opinion" "2024-02-02T00:00:00+00:00")) :=
  (C1_no_state_guard [reviewedRec] "rec-1" "2024-02-02T00:00:00+00:00" fullReviewReq
    reviewedRec (by decide) (by decide) (by decide) (by decide)).1

/-! ## C2 -/
/-- C2: the claim says a successful `reject` clears `approved_treatment` and
`approved_lifestyle` to null.  The source's `reject` passes `None` for both,
but `update_status` interprets `None` as "keep the previous value"
(`approved_treatment if approved_treatment is not None else
self.approved_treatment`), contradicting the source's own comment "Clear any
previous approved content": rejecting a row whose approved fields are set
leaves them populated while the status becomes `rejected_by_doctor`. -/
theorem C2_reject_keeps_approved_fields :
    (reviewedRec.reject "doc-2" "bad data" "2024-02-02T00:00:00+00:00").status =
      "rejected_by_doctor" ∧
    (reviewedRec.reject "doc-2" "bad data" "2024-02-02T00:00:00+00:00").approved_treatment =
      some "ai-treatment" ∧
    (reviewedRec.reject "doc-2" "bad data" "2024-02-02T00:00:00+00:00").approved_lifestyle =
      some "ai-lifestyle" := by
  decide

/-! ## C10 -/
/-- Every row counted by `get_pending_for_doctor` is also counted by
`count_pending_by_doctor_id`: its filter implies the count's filter. -/
theorem pending_pred_implies_count_pred (did : String) (r : Recommendation)
    (h : pendingForDoctorPred did r = true) : countPendingPred did r = true := by
  simp only [pendingForDoctorPred, Bool.and_eq_true] at h
  simp [countPendingPred, h.1, h.2]

/-- C10: `count_pending_by_doctor_id` counts statuses `AI_generated` and
`pending_doctor_review` while `get_pending_for_doctor` returns only
`pending_doctor_review` rows, so the count always dominates the list length
and is strictly greater on a database holding an `AI_generated`
recommendation for the doctor. -/
theorem C10_pending_count_vs_list :
    (∀ db did, (Recommendation.get_pending_for_doctor db did).length ≤
      Recommendation.count_pending_by_doctor_id db did) ∧
    (∀ db did, (Recommendation.get_pending_for_doctor db did).all
      (fun r => r.status == "pending_doctor_review") = true) ∧
    Recommendation.count_pending_by_doctor_id [aiGeneratedRec] "doc-1" = 1 ∧
    (Recommendation.get_pending_for_doctor [aiGeneratedRec] "doc-1").length = 0 := by
  refine ⟨?_, ?_, by decide, by decide⟩
  · intro db did
    exact (List.monotone_filter_right db
      (fun r => pending_pred_implies_count_pred did r)).length_le
  · intro db did
    simp only [Recommendation.get_pending_for_doctor, List.all_eq_true]
    intro r hr
    have := (List.mem_filter.mp hr).2
    simp only [pendingForDoctorPred, Bool.and_eq_true] at this
    exact this.2

end RemedyLab
